import Mathlib

/-!
Verification development for the stock_screener_v3 repository.

The definitions below are a shallow embedding of the core of the
repository: the record reconciler (`scripts/providers/aggregator.py`),
the metric engine and scoring engine (`scripts/screener.py`), and the
per-symbol batch loop of `main`.

Modelling conventions:
* Monetary figures are rationals (`ℚ`); Python `None`/pandas `NaN` is
  `Option.none`.  The one genuinely irrational value, `last2_cagr`
  (a float square root in the source), is kept as an `Option ℝ` derived
  from a rational base via `Real.sqrt`.
* Calendar dates are integers (e.g. `20240331` for 2024-03-31); the
  Python code keys its merge dictionary by `end_date.isoformat()`, which
  is injective on dates, so keying by the date value itself is faithful.
* A Python `dict` (insertion ordered, unique keys, in-place update) is
  an association list `List (Int × α)` with in-place replacement.
* Python's stable `sorted(..., key=..., reverse=True)` is
  `List.mergeSort` (stable) with the descending comparator.
* Division by zero: pandas produces `NaN` for `0/0` (dropped by
  `dropna`) and `±inf` for `x/0`; the embedding maps both to `none`.
  No record reachable from the pipeline carries a zero denominator in
  the claims under study.
-/

namespace StockScreener

/-! ### Data model (`scripts/providers/models.py`) -/

/-- One fiscal year's figures for one symbol (`models.AnnualRecord`). -/
structure AnnualRecord where
  period_label : String
  end_date : Int
  revenue : Option ℚ
  ordinary_income : Option ℚ
  scope : Option String
  accounting_standard : Option String
  unit : String
  source : String
  is_forecast : Bool
deriving Repr, DecidableEq

/-- One quarter's figures for one symbol (`models.QuarterlyRecord`). -/
structure QuarterlyRecord where
  period_label : String
  end_date : Int
  revenue : Option ℚ
  ordinary_income : Option ℚ
  scope : Option String
  accounting_standard : Option String
  unit : String
  source : String
deriving Repr, DecidableEq

/-- Basic company metadata (`models.CompanyInfo`). -/
structure CompanyInfo where
  symbol : String
  name : Option String
  market : Option String
  market_label : Option String
  source : String
  per : Option ℚ
  pbr : Option ℚ
  dividend_yield : Option ℚ
  credit_ratio : Option ℚ
  market_cap : Option ℚ
deriving Repr, DecidableEq

/-! ### Python dict model

`merged: dict[str, Record]` in `_merge_annual` / `_merge_quarterly`:
insertion-ordered association list; assigning to an existing key
replaces the value in place, a fresh key is appended at the end. -/

/-- Model of `merged.get(key)`. -/
def dictGet {α : Type} : List (Int × α) → Int → Option α
  | [], _ => none
  | p :: rest, k => if p.1 = k then some p.2 else dictGet rest k

/-- Model of the assignment into the merge dict. -/
def dictSet {α : Type} : List (Int × α) → Int → α → List (Int × α)
  | [], k, v => [(k, v)]
  | p :: rest, k, v => if p.1 = k then (k, v) :: rest else p :: dictSet rest k v

/-! ### Record reconciler (`scripts/providers/aggregator.py`) -/

/-- Loop body of `FinancialDataProvider._merge_annual`: skip forecasts,
then let the candidate occupy its `end_date` slot unless a `yahoo_jp`
record already holds the slot and the candidate is not from
`yahoo_jp`. -/
def mergeAnnualStep (m : List (Int × AnnualRecord)) (r : AnnualRecord) :
    List (Int × AnnualRecord) :=
  if r.is_forecast then m
  else
    match dictGet m r.end_date with
    | some existing =>
        if existing.source = "yahoo_jp" ∧ r.source ≠ "yahoo_jp" then m
        else dictSet m r.end_date r
    | none => dictSet m r.end_date r

/-- Inner loop of `_merge_annual` over one source's record list. -/
def mergeAnnualRecords (m : List (Int × AnnualRecord)) (records : List AnnualRecord) :
    List (Int × AnnualRecord) :=
  records.foldl mergeAnnualStep m

/-- Outer loop of `_merge_annual` over the record sets, in call order. -/
def mergeAnnualSets (m : List (Int × AnnualRecord))
    (record_sets : List (List AnnualRecord)) : List (Int × AnnualRecord) :=
  record_sets.foldl mergeAnnualRecords m

/-- Model of `FinancialDataProvider._merge_annual`: build the merge dict, then
return its values sorted by `end_date` descending (Python `sorted` with
`reverse=True` is stable, as is `List.mergeSort`). -/
def mergeAnnual (record_sets : List (List AnnualRecord)) : List AnnualRecord :=
  ((mergeAnnualSets [] record_sets).map Prod.snd).mergeSort
    (fun a b => decide (b.end_date ≤ a.end_date))

/-- Loop body of `FinancialDataProvider._merge_quarterly` (no forecast
filter on quarterly records). -/
def mergeQuarterlyStep (m : List (Int × QuarterlyRecord)) (r : QuarterlyRecord) :
    List (Int × QuarterlyRecord) :=
  match dictGet m r.end_date with
  | some existing =>
      if existing.source = "yahoo_jp" ∧ r.source ≠ "yahoo_jp" then m
      else dictSet m r.end_date r
  | none => dictSet m r.end_date r

/-- Inner loop of `_merge_quarterly` over one source's record list. -/
def mergeQuarterlyRecords (m : List (Int × QuarterlyRecord))
    (records : List QuarterlyRecord) : List (Int × QuarterlyRecord) :=
  records.foldl mergeQuarterlyStep m

/-- Outer loop of `_merge_quarterly` over the record sets. -/
def mergeQuarterlySets (m : List (Int × QuarterlyRecord))
    (record_sets : List (List QuarterlyRecord)) : List (Int × QuarterlyRecord) :=
  record_sets.foldl mergeQuarterlyRecords m

/-- Model of `FinancialDataProvider._merge_quarterly`. -/
def mergeQuarterly (record_sets : List (List QuarterlyRecord)) : List QuarterlyRecord :=
  ((mergeQuarterlySets [] record_sets).map Prod.snd).mergeSort
    (fun a b => decide (b.end_date ≤ a.end_date))

/-- Outcome of one source adapter call: a record list, or a raised
exception (the adapters are external; `get_annual` wraps each call in
`try/except`). -/
def recoverFetch {α : Type} : Except String (List α) → List α
  | Except.ok records => records
  | Except.error _ => []

/-- Model of `FinancialDataProvider.get_annual`: each adapter failure is replaced
by the empty list, then the two contributions are merged in call order
(Kabutan first, Yahoo second). -/
def get_annual (kabutanFetch yahooFetch : Except String (List AnnualRecord)) :
    List AnnualRecord :=
  mergeAnnual [recoverFetch kabutanFetch, recoverFetch yahooFetch]

/-- Model of `FinancialDataProvider.get_quarterly`. -/
def get_quarterly (kabutanFetch yahooFetch : Except String (List QuarterlyRecord)) :
    List QuarterlyRecord :=
  mergeQuarterly [recoverFetch kabutanFetch, recoverFetch yahooFetch]

/-! ### Metric engine (`scripts/screener.py`) -/

/-- One row of the dataframe built by `to_dataframe`: columns
`period`, `end_date`, `revenue`, `ordinary_income`. -/
structure Row where
  period : String
  end_date : Int
  revenue : Option ℚ
  ordinary_income : Option ℚ
deriving Repr, DecidableEq

/-- The `dropna(subset=["ordinary_income", "revenue"])` predicate. -/
def keepRow (r : Row) : Bool :=
  r.ordinary_income.isSome && r.revenue.isSome

/-- Model of `df.sort_values("end_date", ascending=False)`. -/
def sortRows (rows : List Row) : List Row :=
  rows.mergeSort (fun a b => decide (b.end_date ≤ a.end_date))

/-- Drop rows with a null figure, then sort by `end_date` descending
(the body of `to_dataframe` after the row list is built). -/
def dropSort (rows : List Row) : List Row :=
  sortRows (rows.filter keepRow)

/-- Row built by `to_dataframe` from an `AnnualRecord`. -/
def annualToRow (r : AnnualRecord) : Row :=
  ⟨r.period_label, r.end_date, r.revenue, r.ordinary_income⟩

/-- Row built by `to_dataframe` from a `QuarterlyRecord`. -/
def quarterlyToRow (r : QuarterlyRecord) : Row :=
  ⟨r.period_label, r.end_date, r.revenue, r.ordinary_income⟩

/-- Model of `to_dataframe(records, "ordinary_income", "revenue")` on annual records. -/
def to_dataframe_annual (records : List AnnualRecord) : List Row :=
  dropSort (records.map annualToRow)

/-- Model of `to_dataframe(records, "ordinary_income", "revenue")` on quarterly records. -/
def to_dataframe_quarterly (records : List QuarterlyRecord) : List Row :=
  dropSort (records.map quarterlyToRow)

/-- Cell `df["ordinary_income"].iloc[i]` as an `Option` (`none` past the end
or for a null cell). -/
def rowIncome (df : List Row) (i : ℕ) : Option ℚ :=
  (df.get? i).bind Row.ordinary_income

/-- Cell `df["revenue"].iloc[i]` as an `Option`. -/
def rowRevenue (df : List Row) (i : ℕ) : Option ℚ :=
  (df.get? i).bind Row.revenue

/-- Quotient `(a - b) / b` with `NaN` propagation: absent whenever either operand
is absent or the denominator is zero (pandas yields `NaN` for `0/0` and
`±inf` for `x/0`; only the `NaN` case is reachable in the pipeline). -/
def relChange (a b : Option ℚ) : Option ℚ :=
  match a, b with
  | some x, some y => if y = 0 then none else some ((x - y) / y)
  | _, _ => none

/-- Quotient `a / b` with the same absence propagation (`margin` column). -/
def divOpt (a b : Option ℚ) : Option ℚ :=
  match a, b with
  | some x, some y => if y = 0 then none else some (x / y)
  | _, _ => none

/-- The `ordinary_yoy` column of `annual_checks`:
`df["ordinary_income"].pct_change(periods=-1)`, i.e. entry `i` compares
rows `i` and `i+1` (the final entry is `NaN`). -/
def annualYoyColumn (df : List Row) : List (Option ℚ) :=
  (List.range df.length).map (fun i => relChange (rowIncome df i) (rowIncome df (i + 1)))

/-- Series `window["ordinary_yoy"].dropna()` for `window = df.head(5)`. -/
def annualWindowYoy (df : List Row) : List ℚ :=
  ((annualYoyColumn df).take 5).filterMap id

/-- Result dictionary of `annual_checks`.  A check that is a missing
dictionary key in the empty-frame branch (read back as Python `None`
via `.get`) is `none`; a computed boolean is `some b`. -/
structure AnnualResult where
  enough_years : Bool
  stable_5_10 : Option Bool
  no_big_drop : Option Bool
  no_decline_small : Option Bool
  avg_growth : Option ℚ
  last1_yoy : Option ℚ
  last2_cagr_base : Option ℚ
  yoy_values : List ℚ

/-- Model of `annual_checks(df)`.  `last2_cagr_base` holds the radicand
`income[0] / income[2]`; the reported CAGR is
`AnnualResult.last2_cagr`, its square root minus one. -/
def annual_checks (df : List Row) : AnnualResult :=
  if df = [] then
    { enough_years := false, stable_5_10 := none, no_big_drop := none,
      no_decline_small := none, avg_growth := none, last1_yoy := none,
      last2_cagr_base := none, yoy_values := [] }
  else
    let window := df.take 5
    let ys := annualWindowYoy df
    { enough_years := decide (3 ≤ df.length)
      stable_5_10 :=
        some (if 3 ≤ ys.length then ys.all (fun x => decide ((1 : ℚ)/20 ≤ x ∧ x ≤ (1 : ℚ)/10)) else false)
      no_big_drop :=
        some (if ys ≠ [] then ys.all (fun x => decide (-(1 : ℚ)/5 < x)) else false)
      no_decline_small :=
        some (if ys ≠ [] then ys.all (fun x => decide (-(1 : ℚ)/20 ≤ x)) else false)
      avg_growth := if ys ≠ [] then some (ys.sum / (ys.length : ℚ)) else none
      last1_yoy := ys.head?
      last2_cagr_base :=
        if 3 ≤ window.length then
          match rowIncome window 0, rowIncome window 2 with
          | some a, some b => some (a / b)
          | _, _ => none
        else none
      yoy_values := ys }

/-- Value `(income[0]/income[2]) ** 0.5 - 1` over the reals.  A negative
radicand gives float `NaN` in the source (numpy) — modelled by
`Real.sqrt`'s junk value `0`, which compares below every scoring
threshold exactly as `NaN` does. -/
noncomputable def AnnualResult.last2_cagr (a : AnnualResult) : Option ℝ :=
  a.last2_cagr_base.map (fun b : ℚ => Real.sqrt ((b : ℝ)) - 1)

/-- The pandas comparison idiom `pd.notna(x) and x >= t` (a `NaN` or
absent value compares `False`). -/
def geOpt (o : Option ℚ) (t : ℚ) : Bool :=
  match o with
  | some x => decide (t ≤ x)
  | none => false

/-- Access `column.iloc[i]` on a nullable column (out-of-range gives `none`;
every in-pipeline access is guarded so that Python never indexes out of
range when the guard passes). -/
def colAt (l : List (Option ℚ)) (i : ℕ) : Option ℚ :=
  (l.get? i).getD none

/-- The `ordinary_yoy` column of `quarterly_checks`: a 4-period lag
(`(income[i] - income[i+4]) / income[i+4]`). -/
def quarterlyYoyColumn (df : List Row) : List (Option ℚ) :=
  (List.range df.length).map (fun i => relChange (rowIncome df i) (rowIncome df (i + 4)))

/-- The `revenue_yoy` column of `quarterly_checks`. -/
def quarterlyRevYoyColumn (df : List Row) : List (Option ℚ) :=
  (List.range df.length).map (fun i => relChange (rowRevenue df i) (rowRevenue df (i + 4)))

/-- The `margin` column (`ordinary_income / revenue`). -/
def marginColumn (df : List Row) : List (Option ℚ) :=
  (List.range df.length).map (fun i => divOpt (rowIncome df i) (rowRevenue df i))

/-- Result dictionary of `quarterly_checks`. -/
structure QuarterlyResult where
  enough_quarters : Bool
  lastQ_ok : Option Bool
  sequential_ok : Option Bool
  accelerating : Option Bool
  improving_margin : Option Bool
  quarterly_yoy : List (Option ℚ)
  quarterly_rev_yoy : List (Option ℚ)
  recent_profit_yoy : List (Option ℚ)
  recent_revenue_yoy : List (Option ℚ)

/-- Model of `quarterly_checks(df)`. -/
def quarterly_checks (df : List Row) : QuarterlyResult :=
  if df = [] then
    { enough_quarters := false, lastQ_ok := none, sequential_ok := none,
      accelerating := none, improving_margin := none, quarterly_yoy := [],
      quarterly_rev_yoy := [], recent_profit_yoy := [], recent_revenue_yoy := [] }
  else
    let yoy := quarterlyYoyColumn df
    let rev := quarterlyRevYoyColumn df
    let mar := marginColumn df
    { enough_quarters := decide (5 ≤ df.length)
      lastQ_ok := some (geOpt (colAt yoy 0) ((1 : ℚ)/5) && geOpt (colAt rev 0) ((1 : ℚ)/10))
      sequential_ok :=
        some (((yoy.take 2).all (fun o => geOpt o ((1 : ℚ)/5)) &&
               (rev.take 2).all (fun o => geOpt o ((1 : ℚ)/10))) ||
              (decide (2 ≤ (yoy.take 3).countP (fun o => geOpt o ((1 : ℚ)/5))) &&
               decide (2 ≤ (rev.take 3).countP (fun o => geOpt o ((1 : ℚ)/10)))))
      accelerating :=
        some (match colAt yoy 0, colAt yoy 1 with
              | some a, some b => decide (b ≤ a)
              | _, _ => false)
      improving_margin :=
        some (if 5 ≤ df.length then
                match colAt mar 0, colAt mar 4 with
                | some a, some b => decide (b ≤ a)
                | _, _ => false
              else false)
      quarterly_yoy := yoy
      quarterly_rev_yoy := rev
      recent_profit_yoy := yoy.take 3
      recent_revenue_yoy := rev.take 3 }

/-! ### Scoring engine (`score` and `official_checks` in `scripts/screener.py`) -/

/-- Python truthiness of a check value: `True` counts, `False` and
`None` (missing key) do not. -/
def isTruthy (o : Option Bool) : Bool :=
  o.getD false

/-- Comparison `last1_yoy is not None and last1_yoy >= t`. -/
noncomputable def geOptReal (o : Option ℝ) (t : ℝ) : Bool :=
  match o with
  | some x => decide (t ≤ x)
  | none => false

/-- The first half of `score`: points and notes accumulated from the
four annual checks (a single "insufficient annual data" note when
`enough_years` is false). -/
noncomputable def annualScorePart (a : AnnualResult) : ℕ × List String :=
  if a.enough_years then
    let c1 := isTruthy a.stable_5_10
    let c2 := isTruthy a.no_big_drop
    let c3 := geOpt a.last1_yoy ((1 : ℚ)/5)
    let c4 := geOptReal a.last2_cagr ((1 : ℝ)/5)
    ((cond c1 1 0) + (cond c2 1 0) + (cond c3 1 0) + (cond c4 1 0),
     (if c1 then [] else ["年率5–10%の安定成長は未達"]) ++
     (if c2 then [] else ["途中に大幅減益あり"]) ++
     (if c3 then [] else ["直近1年+20%未満"]) ++
     (if c4 then [] else ["直近2年CAGR+20%未満"]))
  else (0, ["年次データ不足"])

/-- The second half of `score`: points and notes from the four
quarterly checks. -/
noncomputable def quarterlyScorePart (q : QuarterlyResult) : ℕ × List String :=
  if q.enough_quarters then
    let c5 := isTruthy q.lastQ_ok
    let c6 := isTruthy q.sequential_ok
    let c7 := isTruthy q.accelerating
    let c8 := isTruthy q.improving_margin
    ((cond c5 1 0) + (cond c6 1 0) + (cond c7 1 0) + (cond c8 1 0),
     (if c5 then [] else ["直近Q: 経常+20% & 売上+10% 未達"]) ++
     (if c6 then [] else ["直近2–3Qの連続クリア未達"]) ++
     (if c7 then [] else ["経常成長の加速なし"]) ++
     (if c8 then [] else ["経常利益率のYoY改善なし"]))
  else (0, ["四半期データ不足"])

/-- Model of `score(annual_result, quarterly_result)`: the momentum score and
the list of unmet-criterion notes, in emission order (the source joins
them with `"; "`). -/
noncomputable def score (a : AnnualResult) (q : QuarterlyResult) : ℕ × List String :=
  ((annualScorePart a).1 + (quarterlyScorePart q).1,
   (annualScorePart a).2 ++ (quarterlyScorePart q).2)

/-- The `metrics` dictionary of `official_checks`, in insertion order. -/
structure OfficialMetrics where
  rule1_new_high : Option Bool
  rule3_growth : Option Bool
  rule3_no_decline : Option Bool
  rule4_recent20 : Option Bool
  rule5_sales : Option Bool
  rule6_profit : Option Bool
  rule7_resilience : Option Bool
  rule8_per : Option Bool

/-- List `metrics.values()` in dictionary insertion order. -/
def OfficialMetrics.valuesList (m : OfficialMetrics) : List (Option Bool) :=
  [m.rule1_new_high, m.rule3_growth, m.rule3_no_decline, m.rule4_recent20,
   m.rule5_sales, m.rule6_profit, m.rule7_resilience, m.rule8_per]

/-- Return dictionary of `official_checks`. -/
structure OfficialResult where
  metrics : OfficialMetrics
  applicable : ℕ
  officialScore : ℕ
  avg_growth : Option ℚ

/-- Model of `official_checks(annual_result, quarterly_result, info)`.  A rule
with no computable input is `none` (inapplicable); `applicable` counts
the non-`none` rules and `officialScore` the rules equal to
`some true` (Python truthiness of the dict values). -/
noncomputable def official_checks (a : AnnualResult) (q : QuarterlyResult)
    (info : Option CompanyInfo) : OfficialResult :=
  let yoy_values := a.yoy_values
  let avg_growth := if yoy_values ≠ [] then a.avg_growth else none
  let metrics : OfficialMetrics :=
    { rule1_new_high := some true
      rule3_growth := avg_growth.map (fun g => decide ((7 : ℚ)/100 ≤ g))
      rule3_no_decline :=
        if yoy_values ≠ [] then some (yoy_values.all (fun x => decide (-(1 : ℚ)/20 ≤ x)))
        else none
      rule4_recent20 :=
        match a.last1_yoy, a.last2_cagr with
        | some l1, some l2 => some (decide ((1 : ℚ)/5 ≤ l1) && decide ((1 : ℝ)/5 ≤ l2))
        | _, _ => none
      rule5_sales :=
        let recent_revenue := q.recent_revenue_yoy.filterMap id
        if recent_revenue ≠ [] then
          some (decide (2 ≤ recent_revenue.countP (fun x => decide ((1 : ℚ)/10 ≤ x))))
        else none
      rule6_profit :=
        let recent_profit := q.recent_profit_yoy.filterMap id
        if recent_profit ≠ [] then
          some (decide (2 ≤ recent_profit.countP (fun x => decide ((1 : ℚ)/5 ≤ x))))
        else none
      rule7_resilience :=
        let recent_profit := q.recent_profit_yoy.filterMap id
        if recent_profit ≠ [] ∧ yoy_values ≠ [] then
          some ((recent_profit.take 3).all (fun x => decide ((0 : ℚ) ≤ x)) &&
                (yoy_values.take 3).all (fun x => decide (-(1 : ℚ)/20 ≤ x)))
        else none
      rule8_per :=
        match info with
        | some ci => ci.per.map (fun p => decide (p ≤ (60 : ℚ)))
        | none => none }
  { metrics := metrics
    applicable := metrics.valuesList.countP (fun o => o.isSome)
    officialScore := metrics.valuesList.countP (fun o => o == some true)
    avg_growth := avg_growth }

/-! ### Batch loop of `main` (`scripts/screener.py`) -/

/-- The report row dictionary assembled per symbol in `main` (the
`digest` field is the empty string: no `PERPLEXITY_API_KEY` in this
model, under which `perplexity_digest` returns `""`). -/
structure ReportRow where
  symbol : String
  name_jp : String
  market : String
  score_0to7 : ℕ
  official_score : ℕ
  official_applicable : ℕ
  official_rule1_new_high : Option Bool
  official_rule3_growth : Option Bool
  official_rule3_no_decline : Option Bool
  official_rule4_recent20 : Option Bool
  official_rule5_sales : Option Bool
  official_rule6_profit : Option Bool
  official_rule7_resilience : Option Bool
  official_rule8_per : Option Bool
  nh_stable_growth : Option Bool
  nh_no_big_drop : Option Bool
  nh_last1_20 : Option Bool
  nh_last2_20 : Option Bool
  annual_last1_yoy : Option ℚ
  annual_last2_cagr : Option ℝ
  q_last_pretax_yoy : Option ℚ
  q_last_revenue_yoy : Option ℚ
  q_last_ok_20_10 : Option Bool
  q_seq_ok : Option Bool
  q_accelerating : Option Bool
  q_improving_margin : Option Bool
  notes : String
  per : Option ℚ
  digest : String

/-- The `official_note_map` appends, in iteration order, for every
official metric whose value is exactly `False`. -/
def officialNotes (m : OfficialMetrics) : List String :=
  (if m.rule3_growth = some false then ["年平均成長+7%未達"] else []) ++
  (if m.rule3_no_decline = some false then ["過去に減益あり"] else []) ++
  (if m.rule4_recent20 = some false then ["直近2年+20%未達"] else []) ++
  (if m.rule5_sales = some false then ["売上YoY+10%不足"] else []) ++
  (if m.rule6_profit = some false then ["経常YoY+20%不足"] else []) ++
  (if m.rule7_resilience = some false then ["揺るぎない成長要件未満"] else []) ++
  (if m.rule8_per = some false then ["PER>60"] else [])

/-- The row built inside the `try` block of `main` for a symbol whose
fetch produced at least one record.  The split/re-join of the score
notes through `"; "` is modelled as list concatenation (no note
contains the separator). -/
noncomputable def buildRow (s : String) (annualRecords : List AnnualRecord)
    (quarterlyRecords : List QuarterlyRecord) (info : Option CompanyInfo) : ReportRow :=
  let adf := to_dataframe_annual annualRecords
  let qdf := to_dataframe_quarterly quarterlyRecords
  let a := annual_checks adf
  let q := quarterly_checks qdf
  let sc := score a q
  let official := official_checks a q info
  let noteList := sc.2 ++ officialNotes official.metrics
  let last1 := a.last1_yoy
  let last2 := a.last2_cagr
  { symbol := s
    name_jp := (info.bind CompanyInfo.name).getD ""
    market := (info.bind CompanyInfo.market).getD ""
    score_0to7 := sc.1
    official_score := official.officialScore
    official_applicable := official.applicable
    official_rule1_new_high := official.metrics.rule1_new_high
    official_rule3_growth := official.metrics.rule3_growth
    official_rule3_no_decline := official.metrics.rule3_no_decline
    official_rule4_recent20 := official.metrics.rule4_recent20
    official_rule5_sales := official.metrics.rule5_sales
    official_rule6_profit := official.metrics.rule6_profit
    official_rule7_resilience := official.metrics.rule7_resilience
    official_rule8_per := official.metrics.rule8_per
    nh_stable_growth := if a.enough_years then a.stable_5_10 else none
    nh_no_big_drop := if a.enough_years then a.no_big_drop else none
    nh_last1_20 := last1.map (fun v => decide ((1 : ℚ)/5 ≤ v))
    nh_last2_20 := last2.map (fun v => decide ((1 : ℝ)/5 ≤ v))
    annual_last1_yoy := last1
    annual_last2_cagr := last2
    q_last_pretax_yoy := if q.enough_quarters then colAt q.quarterly_yoy 0 else none
    q_last_revenue_yoy := if q.enough_quarters then colAt q.quarterly_rev_yoy 0 else none
    q_last_ok_20_10 := q.lastQ_ok
    q_seq_ok := q.sequential_ok
    q_accelerating := q.accelerating
    q_improving_margin := q.improving_margin
    notes := String.intercalate "; " noteList
    per := info.bind CompanyInfo.per
    digest := "" }

/-- The error-log line appended when a symbol has no records at all. -/
def errorMessage (s : String) : String :=
  s ++ ": financial data unavailable after retries"

/-- The per-symbol loop of `main`: a symbol whose fetch yields no
annual and no quarterly records goes to the error list, every other
symbol becomes a report row.  `fetch` abstracts
`fetch_financials(provider, symbol)` (with a deterministic provider the
retry loop returns the same lists as a single call) and `infoF`
abstracts `fetch_company_info`. -/
noncomputable def processSymbols
    (fetch : String → List AnnualRecord × List QuarterlyRecord)
    (infoF : String → Option CompanyInfo) :
    List String → List ReportRow × List String
  | [] => ([], [])
  | s :: rest =>
      let res := processSymbols fetch infoF rest
      if (fetch s).1 = [] ∧ (fetch s).2 = [] then
        (res.1, errorMessage s :: res.2)
      else
        (buildRow s (fetch s).1 (fetch s).2 (infoF s) :: res.1, res.2)

/-! ### Concrete records used by witnesses and counterexamples -/

/-- A non-forecast Yahoo Japan annual record, end date 2024-04-30. -/
def yahooAnnual : AnnualRecord :=
  ⟨"2024", 20240430, some 100, some 15, none, none, "JPY", "yahoo_jp", false⟩

/-- A non-forecast Kabutan annual record at the same end date. -/
def kabutanAnnual : AnnualRecord :=
  ⟨"2024", 20240430, some 100, some 10, none, none, "JPY", "kabutan", false⟩

/-- A Kabutan quarterly record, end date 2024-12-31. -/
def kabutanQuarter : QuarterlyRecord :=
  ⟨"2024Q4", 20241231, some 50, some 8, none, none, "JPY", "kabutan"⟩

/-- A one-period annual dataframe (all figures present). -/
def dfOne : List Row :=
  [⟨"2024", 20240331, some 200, some 100⟩]

/-- A two-period annual dataframe with ordinary income 120 then 100. -/
def dfTwo : List Row :=
  [⟨"2024", 20240331, some 300, some 120⟩, ⟨"2023", 20230331, some 280, some 100⟩]

/-- The spec's worked example: annual incomes `[120, 100, 80, 80]` with
revenues `[300, 280, 250, 200]`, most recent first. -/
def exDf : List Row :=
  [⟨"2024", 20240331, some 300, some 120⟩,
   ⟨"2023", 20230331, some 280, some 100⟩,
   ⟨"2022", 20220331, some 250, some 80⟩,
   ⟨"2021", 20210331, some 200, some 80⟩]

/-- Merge-dictionary invariant: keys are pairwise distinct and every
entry is keyed by its record's `end_date`. -/
def DictInv {α : Type} (dateOf : α → Int) (m : List (Int × α)) : Prop :=
  (m.map Prod.fst).Nodup ∧ ∀ p ∈ m, p.1 = dateOf p.2

/-! ### Dictionary theorems -/

@[simp]
theorem dictGet_nil {α : Type} (k : Int) : dictGet ([] : List (Int × α)) k = none := rfl

theorem dictGet_dictSet_self {α : Type} (m : List (Int × α)) (k : Int) (v : α) :
    dictGet (dictSet m k v) k = some v := by
  induction m with
  | nil => simp [dictGet, dictSet]
  | cons p rest ih =>
      by_cases h : p.1 = k
      · simp [dictGet, dictSet, h]
      · simp [dictGet, dictSet, h, ih]

theorem dictGet_dictSet_ne {α : Type} (m : List (Int × α)) (k k' : Int) (v : α)
    (h : k' ≠ k) : dictGet (dictSet m k' v) k = dictGet m k := by
  induction m with
  | nil => simp [dictGet, dictSet, h]
  | cons p rest ih =>
      by_cases hp : p.1 = k'
      · have hpk : p.1 ≠ k := by rw [hp]; exact h
        simp [dictGet, dictSet, hp, h, hpk]
      · by_cases hk : p.1 = k <;> simp [dictGet, dictSet, hp, hk, ih, Ne.symm h]

/-- Every entry of `dictSet m k v` is `(k, v)` or an original entry. -/
theorem mem_dictSet {α : Type} {m : List (Int × α)} {k : Int} {v : α} {x : Int × α}
    (hx : x ∈ dictSet m k v) : x = (k, v) ∨ x ∈ m := by
  induction m with
  | nil => simpa [dictSet] using hx
  | cons p rest ih =>
      by_cases h : p.1 = k
      · rcases (by simpa [dictSet, h] using hx) with h' | h'
        · exact Or.inl h'
        · exact Or.inr (List.mem_cons_of_mem _ h')
      · rcases (by simpa [dictSet, h] using hx) with h' | h'
        · exact Or.inr (h' ▸ List.mem_cons_self _ _)
        · rcases ih h' with h'' | h''
          · exact Or.inl h''
          · exact Or.inr (List.mem_cons_of_mem _ h'')

/-- The key list after `dictSet`: unchanged if the key was present,
extended by the key otherwise. -/
theorem keys_dictSet {α : Type} (m : List (Int × α)) (k : Int) (v : α) :
    (dictSet m k v).map Prod.fst = m.map Prod.fst ∨
      ((dictSet m k v).map Prod.fst = m.map Prod.fst ++ [k] ∧ k ∉ m.map Prod.fst) := by
  induction m with
  | nil => right; simp [dictSet]
  | cons p rest ih =>
      by_cases h : p.1 = k
      · left; simp [dictSet, h]
      · rcases ih with h' | ⟨h', hk⟩
        · left; simp [dictSet, h, h']
        · right
          constructor
          · simp [dictSet, h, h']
          · simp only [List.map_cons, List.mem_cons]
            rintro (h'' | h'')
            · exact h (h''.symm)
            · exact hk h''

/-! ### Reconciler theorems -/

/-- One `_merge_annual` iteration never moves a `yahoo_jp` occupant of
any date slot to a non-`yahoo_jp` record. -/
theorem mergeAnnualStep_keeps_yahoo {m : List (Int × AnnualRecord)} {k : Int}
    {e : AnnualRecord} (r : AnnualRecord) (hk : dictGet m k = some e)
    (hy : e.source = "yahoo_jp") :
    ∃ e', dictGet (mergeAnnualStep m r) k = some e' ∧ e'.source = "yahoo_jp" := by
  unfold mergeAnnualStep
  by_cases hf : r.is_forecast
  · exact ⟨e, by simp [hf, hk], hy⟩
  · have hf' : r.is_forecast = false := by simpa using hf
    by_cases hd : r.end_date = k
    · rw [hd, hk]
      by_cases hc : e.source = "yahoo_jp" ∧ r.source ≠ "yahoo_jp"
      · exact ⟨e, by simp [hf', hc, hk], hy⟩
      · push_neg at hc
        have hr : r.source = "yahoo_jp" := hc hy
        refine ⟨r, ?_, hr⟩
        have hnc : ¬(e.source = "yahoo_jp" ∧ r.source ≠ "yahoo_jp") := by
          rintro ⟨-, h2⟩
          exact h2 hr
        simp only [hf', Bool.false_eq_true, if_false, hnc]
        exact dictGet_dictSet_self m k r
    · cases hm : dictGet m r.end_date with
      | none =>
          refine ⟨e, ?_, hy⟩
          simp only [hf', Bool.false_eq_true, if_false, hm]
          rw [dictGet_dictSet_ne m k r.end_date r hd]
          exact hk
      | some ex =>
          by_cases hc : ex.source = "yahoo_jp" ∧ r.source ≠ "yahoo_jp"
          · exact ⟨e, by simp [hf', hm, hc, hk], hy⟩
          · refine ⟨e, ?_, hy⟩
            simp only [hf', Bool.false_eq_true, if_false, hm, hc]
            rw [dictGet_dictSet_ne m k r.end_date r hd]
            exact hk

/-- Lemma `mergeAnnualStep_keeps_yahoo` extended over one source's list. -/
theorem mergeAnnualRecords_keeps_yahoo (records : List AnnualRecord) :
    ∀ {m : List (Int × AnnualRecord)} {k : Int} {e : AnnualRecord},
      dictGet m k = some e → e.source = "yahoo_jp" →
      ∃ e', dictGet (mergeAnnualRecords m records) k = some e' ∧ e'.source = "yahoo_jp" := by
  induction records with
  | nil => exact fun hk hy => ⟨_, hk, hy⟩
  | cons r rs ih =>
      intro m k e hk hy
      obtain ⟨e', hk', hy'⟩ := mergeAnnualStep_keeps_yahoo r hk hy
      exact ih hk' hy'

/-- Lemma `mergeAnnualStep_keeps_yahoo` extended over all remaining record sets. -/
theorem mergeAnnualSets_keeps_yahoo (record_sets : List (List AnnualRecord)) :
    ∀ {m : List (Int × AnnualRecord)} {k : Int} {e : AnnualRecord},
      dictGet m k = some e → e.source = "yahoo_jp" →
      ∃ e', dictGet (mergeAnnualSets m record_sets) k = some e' ∧ e'.source = "yahoo_jp" := by
  induction record_sets with
  | nil => exact fun hk hy => ⟨_, hk, hy⟩
  | cons rs rest ih =>
      intro m k e hk hy
      obtain ⟨e', hk', hy'⟩ := mergeAnnualRecords_keeps_yahoo rs hk hy
      exact ih hk' hy'

/-- Any conflict other than yahoo-vs-non-yahoo lets the candidate
(non-forecast) annual record occupy its slot. -/
theorem mergeAnnualStep_overwrites {m : List (Int × AnnualRecord)} {r : AnnualRecord}
    (hf : r.is_forecast = false)
    (h : ∀ e, dictGet m r.end_date = some e → e.source = "yahoo_jp" → r.source = "yahoo_jp") :
    dictGet (mergeAnnualStep m r) r.end_date = some r := by
  unfold mergeAnnualStep
  rw [hf]
  simp only [Bool.false_eq_true, if_false]
  cases hm : dictGet m r.end_date with
  | none => exact dictGet_dictSet_self m r.end_date r
  | some ex =>
      have : ¬(ex.source = "yahoo_jp" ∧ r.source ≠ "yahoo_jp") := by
        rintro ⟨h1, h2⟩
        exact h2 (h ex hm h1)
      simp only [this, if_false]
      exact dictGet_dictSet_self m r.end_date r

/-- Quarterly version of `mergeAnnualStep_keeps_yahoo`. -/
theorem mergeQuarterlyStep_keeps_yahoo {m : List (Int × QuarterlyRecord)} {k : Int}
    {e : QuarterlyRecord} (r : QuarterlyRecord) (hk : dictGet m k = some e)
    (hy : e.source = "yahoo_jp") :
    ∃ e', dictGet (mergeQuarterlyStep m r) k = some e' ∧ e'.source = "yahoo_jp" := by
  unfold mergeQuarterlyStep
  by_cases hd : r.end_date = k
  · rw [hd, hk]
    by_cases hc : e.source = "yahoo_jp" ∧ r.source ≠ "yahoo_jp"
    · exact ⟨e, by simp [hc, hk], hy⟩
    · push_neg at hc
      have hr : r.source = "yahoo_jp" := hc hy
      refine ⟨r, ?_, hr⟩
      have hnc : ¬(e.source = "yahoo_jp" ∧ r.source ≠ "yahoo_jp") := by
        rintro ⟨-, h2⟩
        exact h2 hr
      simp only [hnc, if_false]
      exact dictGet_dictSet_self m k r
  · cases hm : dictGet m r.end_date with
    | none =>
        refine ⟨e, ?_, hy⟩
        simp only [hm]
        rw [dictGet_dictSet_ne m k r.end_date r hd]
        exact hk
    | some ex =>
        by_cases hc : ex.source = "yahoo_jp" ∧ r.source ≠ "yahoo_jp"
        · exact ⟨e, by simp [hm, hc, hk], hy⟩
        · refine ⟨e, ?_, hy⟩
          simp only [hm, hc, if_false]
          rw [dictGet_dictSet_ne m k r.end_date r hd]
          exact hk

/-- Quarterly version of `mergeAnnualRecords_keeps_yahoo`. -/
theorem mergeQuarterlyRecords_keeps_yahoo (records : List QuarterlyRecord) :
    ∀ {m : List (Int × QuarterlyRecord)} {k : Int} {e : QuarterlyRecord},
      dictGet m k = some e → e.source = "yahoo_jp" →
      ∃ e', dictGet (mergeQuarterlyRecords m records) k = some e' ∧ e'.source = "yahoo_jp" := by
  induction records with
  | nil => exact fun hk hy => ⟨_, hk, hy⟩
  | cons r rs ih =>
      intro m k e hk hy
      obtain ⟨e', hk', hy'⟩ := mergeQuarterlyStep_keeps_yahoo r hk hy
      exact ih hk' hy'

/-- Quarterly version of `mergeAnnualSets_keeps_yahoo`. -/
theorem mergeQuarterlySets_keeps_yahoo (record_sets : List (List QuarterlyRecord)) :
    ∀ {m : List (Int × QuarterlyRecord)} {k : Int} {e : QuarterlyRecord},
      dictGet m k = some e → e.source = "yahoo_jp" →
      ∃ e', dictGet (mergeQuarterlySets m record_sets) k = some e' ∧ e'.source = "yahoo_jp" := by
  induction record_sets with
  | nil => exact fun hk hy => ⟨_, hk, hy⟩
  | cons rs rest ih =>
      intro m k e hk hy
      obtain ⟨e', hk', hy'⟩ := mergeQuarterlyRecords_keeps_yahoo rs hk hy
      exact ih hk' hy'

/-- Quarterly version of `mergeAnnualStep_overwrites`. -/
theorem mergeQuarterlyStep_overwrites {m : List (Int × QuarterlyRecord)}
    {r : QuarterlyRecord}
    (h : ∀ e, dictGet m r.end_date = some e → e.source = "yahoo_jp" → r.source = "yahoo_jp") :
    dictGet (mergeQuarterlyStep m r) r.end_date = some r := by
  unfold mergeQuarterlyStep
  cases hm : dictGet m r.end_date with
  | none => exact dictGet_dictSet_self m r.end_date r
  | some ex =>
      have : ¬(ex.source = "yahoo_jp" ∧ r.source ≠ "yahoo_jp") := by
        rintro ⟨h1, h2⟩
        exact h2 (h ex hm h1)
      simp only [this, if_false]
      exact dictGet_dictSet_self m r.end_date r

/-- C1: in both merge procedures, once a `yahoo_jp` record occupies an
`end_date` slot of the merge dictionary, every later-processed merge
input leaves a `yahoo_jp`-sourced record in that slot (a non-`yahoo_jp`
record never replaces it); and in any other source combination the
later-processed (non-forecast, for annual) record overwrites the slot. -/
theorem yahoo_priority_merge :
    (∀ (m : List (Int × AnnualRecord)) (record_sets : List (List AnnualRecord))
        (k : Int) (e : AnnualRecord),
        dictGet m k = some e → e.source = "yahoo_jp" →
        ∃ e', dictGet (mergeAnnualSets m record_sets) k = some e' ∧
          e'.source = "yahoo_jp") ∧
    (∀ (m : List (Int × AnnualRecord)) (r : AnnualRecord),
        r.is_forecast = false →
        (∀ e, dictGet m r.end_date = some e → e.source = "yahoo_jp" →
          r.source = "yahoo_jp") →
        dictGet (mergeAnnualStep m r) r.end_date = some r) ∧
    (∀ (m : List (Int × QuarterlyRecord)) (record_sets : List (List QuarterlyRecord))
        (k : Int) (e : QuarterlyRecord),
        dictGet m k = some e → e.source = "yahoo_jp" →
        ∃ e', dictGet (mergeQuarterlySets m record_sets) k = some e' ∧
          e'.source = "yahoo_jp") ∧
    (∀ (m : List (Int × QuarterlyRecord)) (r : QuarterlyRecord),
        (∀ e, dictGet m r.end_date = some e → e.source = "yahoo_jp" →
          r.source = "yahoo_jp") →
        dictGet (mergeQuarterlyStep m r) r.end_date = some r) :=
  ⟨fun _ record_sets _ _ hk hy => mergeAnnualSets_keeps_yahoo record_sets hk hy,
   fun _ _ hf h => mergeAnnualStep_overwrites hf h,
   fun _ record_sets _ _ hk hy => mergeQuarterlySets_keeps_yahoo record_sets hk hy,
   fun _ _ h => mergeQuarterlyStep_overwrites h⟩

/-- Witness for C1: a concrete dictionary holding a `yahoo_jp` record at
2024-04-30, then a later-merged Kabutan record set at the same date. -/
theorem yahoo_priority_merge_witness :
    ∃ e', dictGet (mergeAnnualSets [(20240430, yahooAnnual)] [[kabutanAnnual]])
        20240430 = some e' ∧ e'.source = "yahoo_jp" :=
  yahoo_priority_merge.1 [(20240430, yahooAnnual)] [[kabutanAnnual]] 20240430
    yahooAnnual (by decide) (by decide)

/-- C5: when one adapter raises, its contribution is the empty list and
the merge proceeds with the other source alone; when both raise, the
provider returns the empty timeline rather than an error. -/
theorem adapter_failure_handling :
    (∀ (msg : String) (ys : List AnnualRecord),
        get_annual (Except.error msg) (Except.ok ys) = mergeAnnual [ys]) ∧
    (∀ (xs : List AnnualRecord) (msg : String),
        get_annual (Except.ok xs) (Except.error msg) = mergeAnnual [xs]) ∧
    (∀ (msg msg2 : String),
        get_annual (Except.error msg) (Except.error msg2) = []) ∧
    (∀ (msg : String) (ys : List QuarterlyRecord),
        get_quarterly (Except.error msg) (Except.ok ys) = mergeQuarterly [ys]) ∧
    (∀ (xs : List QuarterlyRecord) (msg : String),
        get_quarterly (Except.ok xs) (Except.error msg) = mergeQuarterly [xs]) ∧
    (∀ (msg msg2 : String),
        get_quarterly (Except.error msg) (Except.error msg2) = []) := by
  refine ⟨fun msg ys => rfl, fun xs msg => rfl, fun msg msg2 => ?_,
    fun msg ys => rfl, fun xs msg => rfl, fun msg msg2 => ?_⟩ <;>
    simp [get_annual, get_quarterly, recoverFetch, mergeAnnual, mergeQuarterly,
      mergeAnnualSets, mergeQuarterlySets, mergeAnnualRecords, mergeQuarterlyRecords]

/-- One `_merge_annual` iteration only ever inserts non-forecast records. -/
theorem mergeAnnualStep_forecast_free {m : List (Int × AnnualRecord)}
    (h : ∀ p ∈ m, p.2.is_forecast = false) (r : AnnualRecord) :
    ∀ p ∈ mergeAnnualStep m r, p.2.is_forecast = false := by
  intro p hp
  unfold mergeAnnualStep at hp
  by_cases hf : r.is_forecast
  · exact h p (by simpa [hf] using hp)
  · have hf' : r.is_forecast = false := by simpa using hf
    rw [hf'] at hp
    simp only [Bool.false_eq_true, if_false] at hp
    cases hm : dictGet m r.end_date with
    | none =>
        rw [hm] at hp
        rcases mem_dictSet hp with h' | h'
        · rw [h']
          exact hf'
        · exact h p h'
    | some ex =>
        rw [hm] at hp
        by_cases hc : ex.source = "yahoo_jp" ∧ r.source ≠ "yahoo_jp"
        · exact h p (by simpa [hc] using hp)
        · simp only [hc, if_false] at hp
          rcases mem_dictSet hp with h' | h'
          · rw [h']
            exact hf'
          · exact h p h'

/-- The inner loop of `_merge_annual` preserves forecast-freeness. -/
theorem mergeAnnualRecords_forecast_free (records : List AnnualRecord) :
    ∀ {m : List (Int × AnnualRecord)}, (∀ p ∈ m, p.2.is_forecast = false) →
      ∀ p ∈ mergeAnnualRecords m records, p.2.is_forecast = false := by
  induction records with
  | nil => exact fun h => h
  | cons r rs ih => exact fun h => ih (mergeAnnualStep_forecast_free h r)

/-- The outer loop of `_merge_annual` preserves forecast-freeness. -/
theorem mergeAnnualSets_forecast_free (record_sets : List (List AnnualRecord)) :
    ∀ {m : List (Int × AnnualRecord)}, (∀ p ∈ m, p.2.is_forecast = false) →
      ∀ p ∈ mergeAnnualSets m record_sets, p.2.is_forecast = false := by
  induction record_sets with
  | nil => exact fun h => h
  | cons rs rest ih => exact fun h => ih (mergeAnnualRecords_forecast_free rs h)

/-- C6: no forecast record ever appears in the canonical annual
timeline returned by `_merge_annual`, for any combination of inputs. -/
theorem no_forecast_in_canonical (record_sets : List (List AnnualRecord))
    (r : AnnualRecord) (hr : r ∈ mergeAnnual record_sets) : r.is_forecast = false := by
  unfold mergeAnnual at hr
  rw [List.mem_mergeSort] at hr
  obtain ⟨p, hp, hpr⟩ := List.mem_map.mp hr
  have := mergeAnnualSets_forecast_free record_sets (by simp) p hp
  rw [hpr] at this
  exact this

/-- Witness for C6 at a concrete one-source, one-record input. -/
theorem no_forecast_in_canonical_witness :
    kabutanAnnual ∈ mergeAnnual [[kabutanAnnual]] ∧ kabutanAnnual.is_forecast = false := by
  have hmem : kabutanAnnual ∈ mergeAnnual [[kabutanAnnual]] := by
    simp [mergeAnnual, mergeAnnualSets, mergeAnnualRecords, mergeAnnualStep,
      dictGet, dictSet, kabutanAnnual]
  exact ⟨hmem, no_forecast_in_canonical [[kabutanAnnual]] kabutanAnnual hmem⟩

/-- Setting with a key matching the stored record preserves the
invariant. -/
theorem dictSet_inv {α : Type} {dateOf : α → Int} {m : List (Int × α)} {k : Int}
    {v : α} (h : DictInv dateOf m) (hk : k = dateOf v) : DictInv dateOf (dictSet m k v) := by
  constructor
  · rcases keys_dictSet m k v with h' | ⟨h', hnk⟩
    · rw [h']
      exact h.1
    · rw [h', List.nodup_append]
      exact ⟨h.1, List.nodup_singleton k, by simpa using hnk⟩
  · intro p hp
    rcases mem_dictSet hp with h' | h'
    · rw [h']
      exact hk
    · exact h.2 p h'

/-- A fold of steps that each either keep the dictionary or perform a
`dictSet` keyed by the record's date preserves the invariant. -/
theorem dictInv_foldl {α : Type} (dateOf : α → Int)
    (step : List (Int × α) → α → List (Int × α))
    (hstep : ∀ m r, step m r = m ∨ step m r = dictSet m (dateOf r) r) :
    ∀ (records : List α) (m : List (Int × α)),
      DictInv dateOf m → DictInv dateOf (records.foldl step m) := by
  intro records
  induction records with
  | nil => exact fun m h => h
  | cons r rs ih =>
      intro m h
      apply ih
      rcases hstep m r with he | he <;> rw [he]
      · exact h
      · exact dictSet_inv h rfl

/-- The set-level fold also preserves the invariant. -/
theorem dictInv_foldl_sets {α : Type} (dateOf : α → Int)
    (step : List (Int × α) → α → List (Int × α))
    (hstep : ∀ m r, step m r = m ∨ step m r = dictSet m (dateOf r) r) :
    ∀ (record_sets : List (List α)) (m : List (Int × α)),
      DictInv dateOf m →
      DictInv dateOf (record_sets.foldl (fun acc rs => rs.foldl step acc) m) := by
  intro record_sets
  induction record_sets with
  | nil => exact fun m h => h
  | cons rs rest ih => exact fun m h => ih _ (dictInv_foldl dateOf step hstep rs m h)

/-- Each `_merge_annual` iteration keeps the dictionary or sets the
candidate at its own `end_date` key. -/
theorem mergeAnnualStep_shape (m : List (Int × AnnualRecord)) (r : AnnualRecord) :
    mergeAnnualStep m r = m ∨ mergeAnnualStep m r = dictSet m r.end_date r := by
  unfold mergeAnnualStep
  by_cases hf : r.is_forecast
  · left
    simp [hf]
  · have hf' : r.is_forecast = false := by simpa using hf
    rw [hf']
    simp only [Bool.false_eq_true, if_false]
    cases hm : dictGet m r.end_date with
    | none => right; rfl
    | some ex =>
        by_cases hc : ex.source = "yahoo_jp" ∧ r.source ≠ "yahoo_jp"
        · left
          simp [hc]
        · right
          simp [hc]

/-- Quarterly analogue of `mergeAnnualStep_shape`. -/
theorem mergeQuarterlyStep_shape (m : List (Int × QuarterlyRecord)) (r : QuarterlyRecord) :
    mergeQuarterlyStep m r = m ∨ mergeQuarterlyStep m r = dictSet m r.end_date r := by
  unfold mergeQuarterlyStep
  cases hm : dictGet m r.end_date with
  | none => right; rfl
  | some ex =>
      by_cases hc : ex.source = "yahoo_jp" ∧ r.source ≠ "yahoo_jp"
      · left
        simp [hc]
      · right
        simp [hc]

/-- The invariant holds for the full annual merge dictionary. -/
theorem mergeAnnualSets_inv (record_sets : List (List AnnualRecord)) :
    DictInv (fun r => r.end_date) (mergeAnnualSets [] record_sets) :=
  dictInv_foldl_sets _ mergeAnnualStep mergeAnnualStep_shape record_sets []
    ⟨List.nodup_nil, by simp⟩

/-- The invariant holds for the full quarterly merge dictionary. -/
theorem mergeQuarterlySets_inv (record_sets : List (List QuarterlyRecord)) :
    DictInv (fun r => r.end_date) (mergeQuarterlySets [] record_sets) :=
  dictInv_foldl_sets _ mergeQuarterlyStep mergeQuarterlyStep_shape record_sets []
    ⟨List.nodup_nil, by simp⟩

/-- The dates of the dictionary's values are pairwise distinct. -/
theorem values_dates_nodup {α : Type} {dateOf : α → Int} {m : List (Int × α)}
    (h : DictInv dateOf m) : ((m.map Prod.snd).map dateOf).Nodup := by
  rw [List.map_map]
  have : m.map (dateOf ∘ Prod.snd) = m.map Prod.fst :=
    List.map_congr_left (fun p hp => ((h.2 p hp).symm : dateOf p.2 = p.1))
  rw [this]
  exact h.1

/-- C9: each canonical timeline holds at most one record per `end_date`
and is strictly descending by `end_date` (most recent first) — stated
as strict pairwise ordering, which implies both uniqueness of the
`end_date` key and descending sortedness. -/
theorem canonical_unique_sorted :
    (∀ record_sets : List (List AnnualRecord),
      (mergeAnnual record_sets).Pairwise (fun a b => b.end_date < a.end_date)) ∧
    (∀ record_sets : List (List QuarterlyRecord),
      (mergeQuarterly record_sets).Pairwise (fun a b => b.end_date < a.end_date)) := by
  constructor
  · intro record_sets
    unfold mergeAnnual
    have hsorted := @List.sorted_mergeSort AnnualRecord
      (fun a b => decide (b.end_date ≤ a.end_date))
      (fun a b c h1 h2 => by
        simp only [decide_eq_true_eq] at *
        omega)
      (fun a b => by
        rcases le_total b.end_date a.end_date with h | h <;> simp [h])
      ((mergeAnnualSets [] record_sets).map Prod.snd)
    have hle := hsorted.imp (fun {a b} h => (by simpa using h : b.end_date ≤ a.end_date))
    have hnd := values_dates_nodup (mergeAnnualSets_inv record_sets)
    have hperm := (List.mergeSort_perm ((mergeAnnualSets [] record_sets).map Prod.snd)
      (fun a b => decide (b.end_date ≤ a.end_date))).map (fun r => r.end_date)
    have hndSorted := (hperm.nodup_iff).mpr hnd
    have hne := List.pairwise_map.mp hndSorted
    exact (hle.and hne).imp (fun h => lt_of_le_of_ne h.1 (Ne.symm h.2))
  · intro record_sets
    unfold mergeQuarterly
    have hsorted := @List.sorted_mergeSort QuarterlyRecord
      (fun a b => decide (b.end_date ≤ a.end_date))
      (fun a b c h1 h2 => by
        simp only [decide_eq_true_eq] at *
        omega)
      (fun a b => by
        rcases le_total b.end_date a.end_date with h | h <;> simp [h])
      ((mergeQuarterlySets [] record_sets).map Prod.snd)
    have hle := hsorted.imp (fun {a b} h => (by simpa using h : b.end_date ≤ a.end_date))
    have hnd := values_dates_nodup (mergeQuarterlySets_inv record_sets)
    have hperm := (List.mergeSort_perm ((mergeQuarterlySets [] record_sets).map Prod.snd)
      (fun a b => decide (b.end_date ≤ a.end_date))).map (fun r => r.end_date)
    have hndSorted := (hperm.nodup_iff).mpr hnd
    have hne := List.pairwise_map.mp hndSorted
    exact (hle.and hne).imp (fun h => lt_of_le_of_ne h.1 (Ne.symm h.2))

/-! ### Metric engine theorems -/

/-- C8 counterexample: on a one-period timeline no YoY value is
computable, yet `no_big_drop` is the boolean `False` — the claimed
"true iff every computable YoY value exceeds −0.20" fails, because the
right-hand side is vacuously true. -/
theorem no_big_drop_iff_counterexample :
    ¬ ((annual_checks dfOne).no_big_drop = some true ↔
        ∀ x ∈ annualWindowYoy dfOne, -(1 : ℚ)/5 < x) := by
  decide

/-- C8 (amended): on an empty frame `no_big_drop` is absent; on a
non-empty frame it is `True` iff the YoY window is non-empty AND every
computable YoY value in it is strictly greater than −0.20 (incomputable
values are dropped and do not count against the check). -/
theorem no_big_drop_iff (df : List Row) :
    (df = [] → (annual_checks df).no_big_drop = none) ∧
    (df ≠ [] → ((annual_checks df).no_big_drop = some true ↔
        annualWindowYoy df ≠ [] ∧ ∀ x ∈ annualWindowYoy df, -(1 : ℚ)/5 < x)) := by
  constructor
  · intro h
    simp [annual_checks, h]
  · intro h
    by_cases hys : annualWindowYoy df = []
    · simp [annual_checks, h, hys]
    · simp [annual_checks, h, hys, List.all_eq_true]

/-- Witness for C8 (amended) at the two-period frame: the single YoY
value `0.2` makes `no_big_drop` true. -/
theorem no_big_drop_iff_witness :
    dfTwo ≠ [] ∧ ((annual_checks dfTwo).no_big_drop = some true ↔
        annualWindowYoy dfTwo ≠ [] ∧ ∀ x ∈ annualWindowYoy dfTwo, -(1 : ℚ)/5 < x) :=
  ⟨by decide, (no_big_drop_iff dfTwo).2 (by decide)⟩

/-- C2 counterexample: a one-period timeline (fewer than 3 periods)
still gets computed boolean checks — `no_big_drop` is the present
boolean `False`, not absent. -/
theorem insufficient_years_counterexample :
    dfOne.length < 3 ∧ (annual_checks dfOne).no_big_drop = some false := by
  decide

/-- C2 (amended): with fewer than 3 periods the frame is reported as
insufficient (`enough_years = false`) and `last2_cagr` is absent, and
on an empty frame every derived check is absent; but on a non-empty
frame of 1–2 periods the stability/drop/decline checks are computed
booleans (present), not absent. -/
theorem insufficient_years (df : List Row) (h : df.length < 3) :
    (annual_checks df).enough_years = false ∧
    (annual_checks df).last2_cagr_base = none ∧
    (annual_checks df).last2_cagr = none ∧
    (df = [] →
      (annual_checks df).stable_5_10 = none ∧
      (annual_checks df).no_big_drop = none ∧
      (annual_checks df).no_decline_small = none ∧
      (annual_checks df).avg_growth = none ∧
      (annual_checks df).last1_yoy = none ∧
      (annual_checks df).yoy_values = []) ∧
    (df ≠ [] →
      (annual_checks df).stable_5_10.isSome ∧
      (annual_checks df).no_big_drop.isSome ∧
      (annual_checks df).no_decline_small.isSome) := by
  have hwin : ¬ (3 ≤ (df.take 5).length) := by
    rw [List.length_take]
    omega
  have hlen3 : ¬ (3 ≤ df.length) := by omega
  by_cases hd : df = []
  · subst hd
    refine ⟨rfl, rfl, rfl, fun _ => ⟨rfl, rfl, rfl, rfl, rfl, rfl⟩, fun hne => absurd rfl hne⟩
  · refine ⟨?_, ?_, ?_, fun he => absurd he hd, fun _ => ?_⟩
    · simp [annual_checks, hd, hlen3]
    · simp [annual_checks, hd, hlen3, hwin]
    · simp [AnnualResult.last2_cagr, annual_checks, hd, hlen3, hwin]
    · simp [annual_checks, hd]

/-- Witness for C2 (amended) at the one-period frame. -/
theorem insufficient_years_witness :
    dfOne.length < 3 ∧
      ((annual_checks dfOne).enough_years = false ∧
       (annual_checks dfOne).last2_cagr_base = none ∧
       (annual_checks dfOne).last2_cagr = none ∧
       (dfOne = [] →
         (annual_checks dfOne).stable_5_10 = none ∧
         (annual_checks dfOne).no_big_drop = none ∧
         (annual_checks dfOne).no_decline_small = none ∧
         (annual_checks dfOne).avg_growth = none ∧
         (annual_checks dfOne).last1_yoy = none ∧
         (annual_checks dfOne).yoy_values = []) ∧
       (dfOne ≠ [] →
         (annual_checks dfOne).stable_5_10.isSome ∧
         (annual_checks dfOne).no_big_drop.isSome ∧
         (annual_checks dfOne).no_decline_small.isSome)) :=
  ⟨by decide, insufficient_years dfOne (by decide)⟩

/-- C4: with at least 3 periods, `last2_cagr` is
`sqrt(income[0]/income[2]) - 1` when both endpoint incomes are present
and absent otherwise; on the spec's worked example the most recent YoY
is exactly `0.20` and the CAGR is `sqrt(3/2) - 1`. -/
theorem annual_checks_nonempty_eq (df : List Row) (h : df ≠ []) :
    annual_checks df =
      { enough_years := decide (3 ≤ df.length)
        stable_5_10 := some (if 3 ≤ (annualWindowYoy df).length then
          (annualWindowYoy df).all (fun x => decide ((1 : ℚ)/20 ≤ x ∧ x ≤ (1 : ℚ)/10))
          else false)
        no_big_drop := some (if annualWindowYoy df ≠ [] then
          (annualWindowYoy df).all (fun x => decide (-(1 : ℚ)/5 < x)) else false)
        no_decline_small := some (if annualWindowYoy df ≠ [] then
          (annualWindowYoy df).all (fun x => decide (-(1 : ℚ)/20 ≤ x)) else false)
        avg_growth := if annualWindowYoy df ≠ [] then
          some ((annualWindowYoy df).sum / ((annualWindowYoy df).length : ℚ)) else none
        last1_yoy := (annualWindowYoy df).head?
        last2_cagr_base :=
          if 3 ≤ (df.take 5).length then
            match rowIncome (df.take 5) 0, rowIncome (df.take 5) 2 with
            | some a, some b => some (a / b)
            | _, _ => none
          else none
        yoy_values := annualWindowYoy df } := by
  unfold annual_checks
  rw [if_neg h]

theorem last2_cagr_formula :
    (∀ (df : List Row) (a b : ℚ), 3 ≤ df.length →
        rowIncome (df.take 5) 0 = some a → rowIncome (df.take 5) 2 = some b →
        (annual_checks df).last2_cagr = some (Real.sqrt ((a : ℝ) / (b : ℝ)) - 1)) ∧
    (∀ df : List Row, 3 ≤ df.length →
        (rowIncome (df.take 5) 0 = none ∨ rowIncome (df.take 5) 2 = none) →
        (annual_checks df).last2_cagr = none) ∧
    (annual_checks exDf).last1_yoy = some ((1 : ℚ)/5) ∧
    (annual_checks exDf).last2_cagr = some (Real.sqrt ((3 : ℝ)/2) - 1) := by
  have hbase : ∀ (df : List Row), 3 ≤ df.length → df ≠ [] := by
    intro df h he
    rw [he] at h
    simp at h
  have hys : annualWindowYoy exDf = [1/5, 1/4, 0] := by
    have hr : List.range exDf.length = [0, 1, 2, 3] := by decide
    simp only [annualWindowYoy, annualYoyColumn, hr, List.map_cons, List.map_nil]
    norm_num [relChange, rowIncome, exDf, dfTwo, List.take, List.filterMap]
  refine ⟨?_, ?_, ?_, ?_⟩
  · intro df a b hlen ha hb
    have hwin : 3 ≤ (df.take 5).length := by
      rw [List.length_take]
      omega
    rw [AnnualResult.last2_cagr, annual_checks_nonempty_eq df (hbase df hlen)]
    dsimp only
    rw [if_pos hwin, ha, hb]
    simp only [Option.map_some', Option.map_some, Option.some_inj, sub_left_inj]
    push_cast
    rfl
  · intro df hlen hor
    have hwin : 3 ≤ (df.take 5).length := by
      rw [List.length_take]
      omega
    rw [AnnualResult.last2_cagr, annual_checks_nonempty_eq df (hbase df hlen)]
    dsimp only
    rw [if_pos hwin]
    rcases hor with h0 | h2
    · rw [h0]
      rfl
    · cases hi : rowIncome (df.take 5) 0 with
      | none => rfl
      | some a => rw [h2]; rfl
  · rw [annual_checks_nonempty_eq exDf (by simp [exDf])]
    dsimp only
    rw [hys]
    rfl
  · have h120 : rowIncome (exDf.take 5) 0 = some 120 := by decide
    have h80 : rowIncome (exDf.take 5) 2 = some 80 := by decide
    have hwin : 3 ≤ (exDf.take 5).length := by decide
    rw [AnnualResult.last2_cagr, annual_checks_nonempty_eq exDf (by simp [exDf])]
    dsimp only
    rw [if_pos hwin, h120, h80]
    simp only [Option.map_some', Option.map_some, Option.some_inj, sub_left_inj]
    push_cast
    norm_num

/-- Witness for C4 at the worked example. -/
theorem last2_cagr_formula_witness :
    3 ≤ exDf.length ∧ rowIncome (exDf.take 5) 0 = some 120 ∧
      rowIncome (exDf.take 5) 2 = some 80 ∧
      (annual_checks exDf).last2_cagr =
        some (Real.sqrt (((120 : ℚ) : ℝ) / ((80 : ℚ) : ℝ)) - 1) :=
  ⟨by decide, by decide, by decide,
    last2_cagr_formula.1 exDf 120 80 (by decide) (by decide) (by decide)⟩

/-! ### Scoring engine theorems -/

/-- Four one-point rules contribute at most four points. -/
theorem condSum_le_four (c1 c2 c3 c4 : Bool) :
    (cond c1 1 0) + (cond c2 1 0) + (cond c3 1 0) + (cond c4 1 0) ≤ 4 := by
  cases c1 <;> cases c2 <;> cases c3 <;> cases c4 <;> decide

/-- The annual rule family contributes at most 4 points. -/
theorem annualScorePart_le (a : AnnualResult) : (annualScorePart a).1 ≤ 4 := by
  unfold annualScorePart
  by_cases h : a.enough_years
  · rw [if_pos h]
    exact condSum_le_four _ _ _ _
  · rw [if_neg h]
    exact Nat.zero_le 4

/-- The quarterly rule family contributes at most 4 points. -/
theorem quarterlyScorePart_le (q : QuarterlyResult) : (quarterlyScorePart q).1 ≤ 4 := by
  unfold quarterlyScorePart
  by_cases h : q.enough_quarters
  · rw [if_pos h]
    exact condSum_le_four _ _ _ _
  · rw [if_neg h]
    exact Nat.zero_le 4

/-- C7: the momentum score lies in `[0, 8]`, and the quality score's
satisfied-rule count never exceeds its applicable-rule count, which
never exceeds 8. -/
theorem momentum_quality_bounds (a : AnnualResult) (q : QuarterlyResult)
    (info : Option CompanyInfo) :
    0 ≤ (score a q).1 ∧ (score a q).1 ≤ 8 ∧
    (official_checks a q info).officialScore ≤ (official_checks a q info).applicable ∧
    (official_checks a q info).applicable ≤ 8 := by
  refine ⟨Nat.zero_le _, ?_, ?_, ?_⟩
  · have h1 := annualScorePart_le a
    have h2 := quarterlyScorePart_le q
    unfold score
    omega
  · unfold official_checks
    dsimp only
    refine List.countP_mono_left (fun o _ h => ?_)
    cases o with
    | none => simp at h
    | some b => rfl
  · unfold official_checks
    dsimp only
    exact le_trans (List.countP_le_length _) (by rfl)

/-- Every `official_checks` result has at least one applicable and one
satisfied rule: rule 1 (new-high provenance) is constantly true. -/
theorem official_applicable_pos (a : AnnualResult) (q : QuarterlyResult)
    (info : Option CompanyInfo) :
    1 ≤ (official_checks a q info).applicable ∧
    1 ≤ (official_checks a q info).officialScore := by
  unfold official_checks
  dsimp only [OfficialMetrics.valuesList]
  constructor <;> (rw [List.countP_cons]; simp)

/-! ### Batch loop theorems -/

/-- The row built for a symbol carries that symbol. -/
theorem buildRow_symbol (s : String) (ar : List AnnualRecord)
    (qr : List QuarterlyRecord) (info : Option CompanyInfo) :
    (buildRow s ar qr info).symbol = s := rfl

/-- A built row always has at least one applicable and one satisfied
official rule. -/
theorem buildRow_official_pos (s : String) (ar : List AnnualRecord)
    (qr : List QuarterlyRecord) (info : Option CompanyInfo) :
    1 ≤ (buildRow s ar qr info).official_applicable ∧
    1 ≤ (buildRow s ar qr info).official_score :=
  official_applicable_pos (annual_checks (to_dataframe_annual ar))
    (quarterly_checks (to_dataframe_quarterly qr)) info

/-- A symbol with no records at all lands in the error list. -/
theorem errorMessage_mem {fetch : String → List AnnualRecord × List QuarterlyRecord}
    {infoF : String → Option CompanyInfo} :
    ∀ (symbols : List String) (s : String), s ∈ symbols → fetch s = ([], []) →
      errorMessage s ∈ (processSymbols fetch infoF symbols).2 := by
  intro symbols
  induction symbols with
  | nil => intro s hs; exact absurd hs (List.not_mem_nil s)
  | cons t rest ih =>
      intro s hs hf
      rcases List.mem_cons.mp hs with h | h
      · subst h
        have hc : (fetch s).1 = [] ∧ (fetch s).2 = [] := by
          rw [hf]
          exact ⟨rfl, rfl⟩
        rw [processSymbols, if_pos hc]
        exact List.mem_cons_self _ _
      · by_cases hc : (fetch t).1 = [] ∧ (fetch t).2 = []
        · rw [processSymbols, if_pos hc]
          exact List.mem_cons_of_mem _ (ih s h hf)
        · rw [processSymbols, if_neg hc]
          exact ih s h hf

/-- A symbol with no records at all never contributes a report row. -/
theorem no_row_for_empty_fetch {fetch : String → List AnnualRecord × List QuarterlyRecord}
    {infoF : String → Option CompanyInfo} {s : String} (hf : fetch s = ([], [])) :
    ∀ symbols : List String, ∀ r ∈ (processSymbols fetch infoF symbols).1, r.symbol ≠ s := by
  intro symbols
  induction symbols with
  | nil => intro r hr; exact absurd hr (List.not_mem_nil r)
  | cons t rest ih =>
      intro r hr
      by_cases hc : (fetch t).1 = [] ∧ (fetch t).2 = []
      · rw [processSymbols, if_pos hc] at hr
        exact ih r hr
      · rw [processSymbols, if_neg hc] at hr
        rcases List.mem_cons.mp hr with h | h
        · intro hrs
          apply hc
          rw [h, buildRow_symbol] at hrs
          rw [hrs, hf]
          exact ⟨rfl, rfl⟩
        · exact ih r h

/-- A symbol with at least one record always gets a report row, and
that row's official quality ratio has a positive denominator and
numerator. -/
theorem row_for_nonempty_fetch {fetch : String → List AnnualRecord × List QuarterlyRecord}
    {infoF : String → Option CompanyInfo} :
    ∀ (symbols : List String) (s : String), s ∈ symbols → fetch s ≠ ([], []) →
      ∃ r ∈ (processSymbols fetch infoF symbols).1,
        r.symbol = s ∧ 1 ≤ r.official_applicable ∧ 1 ≤ r.official_score := by
  intro symbols
  induction symbols with
  | nil => intro s hs; exact absurd hs (List.not_mem_nil s)
  | cons t rest ih =>
      intro s hs hf
      rcases List.mem_cons.mp hs with h | h
      · subst h
        have hc : ¬((fetch s).1 = [] ∧ (fetch s).2 = []) := by
          intro hc
          exact hf (Prod.ext hc.1 hc.2)
        rw [processSymbols, if_neg hc]
        exact ⟨buildRow s (fetch s).1 (fetch s).2 (infoF s), List.mem_cons_self _ _,
          buildRow_symbol s _ _ _, buildRow_official_pos s _ _ _⟩
      · obtain ⟨r, hr, hprop⟩ := ih s h hf
        by_cases hc : (fetch t).1 = [] ∧ (fetch t).2 = []
        · rw [processSymbols, if_pos hc]
          exact ⟨r, hr, hprop⟩
        · rw [processSymbols, if_neg hc]
          exact ⟨r, List.mem_cons_of_mem _ hr, hprop⟩

/-- C3 counterexample: a symbol whose adapters return nothing at all is
routed to the error list and produces no report row whatsoever — the
row set does not contain it with zero scores. -/
theorem unscorable_symbol_dropped_counterexample :
    (processSymbols (fun _ => ([], [])) (fun _ => none) ["7203.T"]).1 = [] ∧
    (processSymbols (fun _ => ([], [])) (fun _ => none) ["7203.T"]).2 =
      ["7203.T: financial data unavailable after retries"] :=
  ⟨rfl, rfl⟩

/-- C3 (amended): a symbol whose fetch yields no annual and no
quarterly records is appended to the error list (surfaced in the
report's notes section) and omitted from the row set; a symbol with at
least one record always appears as a row, whose official quality score
has at least one applicable and one satisfied rule (rule 1 is
constantly true), so a `0/0` quality ratio never occurs on a row. -/
theorem unscorable_symbol_routing
    (fetch : String → List AnnualRecord × List QuarterlyRecord)
    (infoF : String → Option CompanyInfo) (symbols : List String) (s : String)
    (hs : s ∈ symbols) :
    (fetch s = ([], []) →
      errorMessage s ∈ (processSymbols fetch infoF symbols).2 ∧
      ∀ r ∈ (processSymbols fetch infoF symbols).1, r.symbol ≠ s) ∧
    (fetch s ≠ ([], []) →
      ∃ r ∈ (processSymbols fetch infoF symbols).1,
        r.symbol = s ∧ 1 ≤ r.official_applicable ∧ 1 ≤ r.official_score) :=
  ⟨fun hf => ⟨errorMessage_mem symbols s hs hf, no_row_for_empty_fetch hf symbols⟩,
   fun hf => row_for_nonempty_fetch symbols s hs hf⟩

/-- Witness for C3 (amended) at a concrete one-symbol run with an
always-empty fetch. -/
theorem unscorable_symbol_routing_witness :
    errorMessage "7203.T" ∈
      (processSymbols (fun _ => ([], [])) (fun _ => none) ["7203.T"]).2 ∧
    ∀ r ∈ (processSymbols (fun _ => ([], [])) (fun _ => none) ["7203.T"]).1,
      r.symbol ≠ "7203.T" :=
  (unscorable_symbol_routing (fun _ => ([], [])) (fun _ => none) ["7203.T"] "7203.T"
    (List.mem_cons_self _ _)).1 rfl

/-! ### Dataframe-construction theorems -/

/-- Rows surviving `dropSort` satisfy the dropna predicate. -/
theorem keep_of_mem_dropSort {rows : List Row} {r : Row} (h : r ∈ dropSort rows) :
    keepRow r = true := by
  unfold dropSort sortRows at h
  rw [List.mem_mergeSort] at h
  exact (List.mem_filter.mp h).2

/-- Filtering before `dropSort` changes nothing. -/
theorem dropSort_filter (rows : List Row) :
    dropSort (rows.filter keepRow) = dropSort rows := by
  unfold dropSort
  rw [List.filter_filter]
  congr 1
  exact List.filter_congr (fun r _ => by rw [Bool.and_self])

/-- C10: the dataframe handed to the metric computations holds only
rows with both figures present; null-figure records are removed before
any arithmetic — the dataframe of a record list equals the dataframe of
its non-null sublist, so a removed period shifts the adjacent-period
and 4-quarter-lag comparisons by one position; and the YoY columns pair
positions `i` and `i+1` (annual) / `i+4` (quarterly) of that filtered,
sorted frame rather than leaving an absent entry in place. -/
theorem dataframe_null_policy :
    (∀ (records : List QuarterlyRecord) (r : Row), r ∈ to_dataframe_quarterly records →
        r.ordinary_income.isSome ∧ r.revenue.isSome) ∧
    (∀ records : List QuarterlyRecord,
        to_dataframe_quarterly records =
          to_dataframe_quarterly
            (records.filter (fun q => q.ordinary_income.isSome && q.revenue.isSome))) ∧
    (∀ records : List AnnualRecord,
        to_dataframe_annual records =
          to_dataframe_annual
            (records.filter (fun q => q.ordinary_income.isSome && q.revenue.isSome))) ∧
    (∀ (df : List Row) (i : ℕ), i < df.length →
        (quarterlyYoyColumn df).get? i =
          some (relChange (rowIncome df i) (rowIncome df (i + 4)))) ∧
    (∀ (df : List Row) (i : ℕ), i < df.length →
        (annualYoyColumn df).get? i =
          some (relChange (rowIncome df i) (rowIncome df (i + 1)))) := by
  refine ⟨?_, ?_, ?_, ?_, ?_⟩
  · intro records r h
    have hk := keep_of_mem_dropSort h
    exact And.imp (fun h => h) (fun h => h) (Bool.and_eq_true_iff.mp hk)
  · intro records
    unfold to_dataframe_quarterly
    rw [← dropSort_filter (records.map quarterlyToRow)]
    congr 1
    rw [List.filter_map]
    rfl
  · intro records
    unfold to_dataframe_annual
    rw [← dropSort_filter (records.map annualToRow)]
    congr 1
    rw [List.filter_map]
    rfl
  · intro df i h
    unfold quarterlyYoyColumn
    rw [List.get?_map, List.get?_eq_getElem?, List.getElem?_range h]
    rfl
  · intro df i h
    unfold annualYoyColumn
    rw [List.get?_map, List.get?_eq_getElem?, List.getElem?_range h]
    rfl

/-- Witness for C10: a concrete all-present record survives into the
dataframe with both figures present. -/
theorem dataframe_null_policy_witness :
    quarterlyToRow kabutanQuarter ∈ to_dataframe_quarterly [kabutanQuarter] ∧
    ((quarterlyToRow kabutanQuarter).ordinary_income.isSome ∧
      (quarterlyToRow kabutanQuarter).revenue.isSome) := by
  have hmem : quarterlyToRow kabutanQuarter ∈ to_dataframe_quarterly [kabutanQuarter] := by
    simp [to_dataframe_quarterly, dropSort, sortRows, keepRow, quarterlyToRow,
      kabutanQuarter]
  exact ⟨hmem, dataframe_null_policy.1 [kabutanQuarter] (quarterlyToRow kabutanQuarter) hmem⟩

end StockScreener
